import Mathlib

/-!
Shallow embedding of the supply-chain simulation units of this repository
(`src/maro/simulator/scenarios/supply_chain/units/`): the vehicle logistics
state machine (`vehicle.py`), the consumer ordering unit (`consumer.py`) and
the simple manufacture unit (`simplemanufacture.py`), together with the
storage collaborator they call into.  Python integers are modelled as `Int`;
Python lists as `List`; fallible calls as `Option`/`Except`.
-/

namespace SupplyChain

/-- Quantity lookup in an association list from product id to quantity,
defaulting to 0 for absent products (mirrors `defaultdict`-style access). -/
def lookupQty (l : List (Int × Int)) (pid : Int) : Int :=
  match l with
  | [] => 0
  | (p, q) :: t => if p = pid then q else lookupQty t pid

/-- Pointwise update of an association list from product id to quantity;
appends the key when absent. -/
def updateQty (l : List (Int × Int)) (pid : Int) (f : Int → Int) : List (Int × Int) :=
  match l with
  | [] => [(pid, f 0)]
  | (p, q) :: t => if p = pid then (p, f q) :: t else (p, q) :: updateQty t pid f

/-- Modelled from the spec: the facility `StorageUnit` (its file `storage.py`
is not under `src/`, only its callers are).  Spec §4.1: a capacity-bounded
multi-product container; `capacity` is a single scalar cap on the sum of all
product quantities. -/
structure Storage where
  capacity : Int
  product_number : List (Int × Int)
deriving DecidableEq

/-- Sum of all product quantities currently stored. -/
def Storage.total (s : Storage) : Int :=
  (s.product_number.map Prod.snd).sum

/-- Current quantity of one product (`get_product_number` in the source). -/
def Storage.get_product_number (s : Storage) (pid : Int) : Int :=
  lookupQty s.product_number pid

/-- Modelled from the spec: `try_take(requests) -> bool` (spec §4.1) at a
single-product request, which is the only shape the vehicle code uses
(`try_take_products({self.product_id: quantity})`): succeeds only if the
stored quantity of the product is at least the requested amount; on success
decrements it; on failure nothing is modified. -/
def Storage.try_take_single (s : Storage) (pid qty : Int) : Option Storage :=
  if qty ≤ s.get_product_number pid then
    some { s with product_number := updateQty s.product_number pid (fun q => q - qty) }
  else
    none

/-- Modelled from the spec: `try_add(deliveries, all_or_nothing=False)`
(spec §4.1) at a single-product delivery, which is the only shape the vehicle
code uses (`try_add_products({self.product_id: self.payload}, all_or_nothing=False)`):
adds as much of the product as remaining capacity allows and returns the
amount actually added (may be less than requested, or zero). -/
def Storage.try_add_single (s : Storage) (pid qty : Int) : Storage × Int :=
  let added := max 0 (min qty (s.capacity - s.total))
  ({ s with product_number := updateQty s.product_number pid (fun q => q + added) }, added)

/-! ### ConsumerUnit (`consumer.py`) -/

/-- Python-side mutable state of `ConsumerUnit`.  `open_orders` models the
`defaultdict(Counter)` ledger as a total function from (source facility id,
product id) to outstanding quantity, defaulting to 0.  Data-model
(AttributeStore) mirrors are external collaborators and not modelled. -/
structure ConsumerUnit where
  open_orders : Int → Int → Int
  received : Int
  purchased : Int
  pending_order_daily : List Int
  order_product_cost : Int

/-- The consumer action record (spec §6): consumed per tick. -/
structure ConsumerAction where
  source_id : Int
  product_id : Int
  quantity : Int
  vlt : Int
deriving DecidableEq

/-- `ConsumerUnit.update_open_orders`: signed adjustment of the ledger entry
for (source_id, product_id).  The Python source branches on the sign of
`qty_delta` but both branches perform the identical `+= qty_delta` mutation. -/
def ConsumerUnit.update_open_orders (c : ConsumerUnit)
    (source_id product_id qty_delta : Int) : ConsumerUnit :=
  { c with open_orders := fun s p =>
      if s = source_id ∧ p = product_id then c.open_orders s p + qty_delta
      else c.open_orders s p }

/-- `ConsumerUnit.on_order_reception`: adds the received quantity to the
per-tick `received` counter, then adjusts the ledger by `-original_quantity`. -/
def ConsumerUnit.on_order_reception (c : ConsumerUnit)
    (source_id product_id quantity original_quantity : Int) : ConsumerUnit :=
  ConsumerUnit.update_open_orders
    { c with received := c.received + quantity }
    source_id product_id (-original_quantity)

/-- `shift(self.pending_order_daily, -1, cval=0)`: drop the oldest (head)
bucket and append a zero; length is preserved. -/
def shiftLeft (l : List Int) : List Int :=
  match l with
  | [] => []
  | _ :: t => t ++ [0]

/-- Python list/array indexing: a negative index counts from the end. -/
def pyNat (n : Nat) (i : Int) : Nat :=
  (if i < 0 then i + n else i).toNat

/-- Python `l[i] += delta` with Python indexing semantics. -/
def pyUpdate (l : List Int) (i : Int) (delta : Int) : List Int :=
  l.set (pyNat l.length i) (l.getD (pyNat l.length i) 0 + delta)

/-- `ConsumerUnit.step(tick)`: shift the pending-order window, then, unless
the action is absent or fails the validity guard
(`quantity <= 0 or product_id <= 0 or source_id == 0`), record the order in
the ledger, place it with the source facility's distribution (external: its
returned cost is passed in as `place_order_cost`), set `purchased`, and add
the quantity into the lead-time bucket when `vlt < len(pending_order_daily)`
at Python index `vlt - 1`. -/
def ConsumerUnit.step (c : ConsumerUnit) (action : Option ConsumerAction)
    (place_order_cost : Int) : ConsumerUnit :=
  let c1 := { c with pending_order_daily := shiftLeft c.pending_order_daily }
  match action with
  | none => c1
  | some a =>
    if a.quantity ≤ 0 ∨ a.product_id ≤ 0 ∨ a.source_id = 0 then c1
    else
      let c2 := c1.update_open_orders a.source_id a.product_id a.quantity
      let c3 := { c2 with order_product_cost := place_order_cost, purchased := a.quantity }
      if a.vlt < (c3.pending_order_daily.length : Int) then
        { c3 with pending_order_daily := pyUpdate c3.pending_order_daily (a.vlt - 1) a.quantity }
      else c3

/-- `ConsumerUnit.reset`: re-zeroes the pending window and clears the ledger.
Note the source does not touch `received`, `purchased` or
`order_product_cost` here. -/
def ConsumerUnit.reset (c : ConsumerUnit) (pending_order_len : Nat) : ConsumerUnit :=
  { c with pending_order_daily := List.replicate pending_order_len 0,
           open_orders := fun _ _ => 0 }

/-- Python-side consumer state immediately after `initialize()`:
zero counters from `__init__`, an all-zero pending window of the configured
length, and an empty ledger. -/
def ConsumerUnit.afterInitialize (pending_order_len : Nat) : ConsumerUnit :=
  { open_orders := fun _ _ => 0
    received := 0
    purchased := 0
    pending_order_daily := List.replicate pending_order_len 0
    order_product_cost := 0 }

/-! ### VehicleUnit (`vehicle.py`) -/

/-- Python-side mutable state of `VehicleUnit`.  `destination` holds the
destination facility id (`None` when idle); `path` is the waypoint list from
`find_path` (`None` when idle). -/
structure VehicleUnit where
  max_patient : Int
  destination : Option Int
  path : Option (List (Int × Int))
  product_id : Int
  steps : Int
  payload : Int
  location : Int
  velocity : Int
  requested_quantity : Int
  patient : Int
  cost : Int
  unit_transport_cost : Int
deriving DecidableEq

/-- A facility as seen by `schedule`: identifier and coordinates. -/
structure Facility where
  id : Int
  x : Int
  y : Int
deriving DecidableEq

/-- The external path-finding collaborator (`world.find_path`, spec §6):
given two coordinate pairs, an ordered waypoint sequence or none. -/
structure PathFinder where
  find_path : Int → Int → Int → Int → Option (List (Int × Int))

/-- `VehicleUnit.schedule(destination, product_id, quantity, vlt)`: sets the
job fields, asks `find_path` for a route between the vehicle's facility and
the destination coordinates, raises (here: `Except.error`) when no route
exists, otherwise arms the job: `steps = vlt`, `location = 0`,
`velocity = vlt`, `patient = max_patient`. -/
def VehicleUnit.schedule (v : VehicleUnit) (pf : PathFinder)
    (facility destination : Facility) (product_id quantity vlt : Int) :
    Except String VehicleUnit :=
  let v1 := { v with product_id := product_id
                     destination := some destination.id
                     requested_quantity := quantity }
  match pf.find_path facility.x facility.y destination.x destination.y with
  | none => Except.error "unreachable destination"
  | some path =>
      Except.ok { v1 with path := some path
                          steps := vlt
                          location := 0
                          velocity := vlt
                          patient := v.max_patient }

/-- `VehicleUnit._reset_internal_states`: clears the job and restores
patience to the configured maximum.  Note the source does not touch
`self.cost` here. -/
def VehicleUnit.reset_internal (v : VehicleUnit) : VehicleUnit :=
  { v with destination := none
           path := none
           payload := 0
           product_id := 0
           steps := 0
           location := 0
           requested_quantity := 0
           velocity := 0
           patient := v.max_patient }

/-- `VehicleUnit.reset`: delegates to `_reset_internal_states` (the
`_reset_data_model` call only touches the external AttributeStore). -/
def VehicleUnit.reset (v : VehicleUnit) : VehicleUnit :=
  v.reset_internal

/-- Python-side vehicle state immediately after `initialize()`: every job
field still holds its `__init__` zero/`None`, while `max_patient` and
`unit_transport_cost` come from configuration.  In particular `patient` is 0
(it is only set by `schedule` and `_reset_internal_states`). -/
def VehicleUnit.afterInitialize (maxPatient unitTransportCost : Int) : VehicleUnit :=
  { max_patient := maxPatient
    destination := none
    path := none
    product_id := 0
    steps := 0
    payload := 0
    location := 0
    velocity := 0
    requested_quantity := 0
    patient := 0
    cost := 0
    unit_transport_cost := unitTransportCost }

/-- The slice of the world a stepping vehicle touches: its own state, its
facility's storage (loading source), the destination facility's storage and
the destination's consumer for this product (`destination.products[pid].consumer`),
plus the vehicle's facility id (passed to the consumer callbacks). -/
structure VehicleEnv where
  vehicle : VehicleUnit
  src_stor : Storage
  dst_stor : Storage
  consumer : ConsumerUnit
  src_facility_id : Int

/-- `VehicleUnit.try_unload`: `try_add` the whole payload into the
destination storage with `all_or_nothing=False`.  The returned per-product
map always carries one entry for the requested product (possibly zero, spec
§4.1), so `len(unloaded) > 0` holds and the consumer reception callback
fires with the delivered amount and `self.payload` as the original amount;
the delivered amount is then subtracted from the payload. -/
def VehicleEnv.try_unload (w : VehicleEnv) : VehicleEnv :=
  let r := w.dst_stor.try_add_single w.vehicle.product_id w.vehicle.payload
  let c := w.consumer.on_order_reception w.src_facility_id w.vehicle.product_id
             r.2 w.vehicle.payload
  { w with dst_stor := r.1
           consumer := c
           vehicle := { w.vehicle with payload := w.vehicle.payload - r.2 } }

/-- `VehicleUnit.step(tick)`, translated branch by branch:
if `steps > 0` and the vehicle is still at the source with no payload, try
to load — on success the method returns early (the trailing cost line is
skipped), on failure patience decrements and, below 0, the open order is
rolled back and the job cleared; otherwise with positive payload the vehicle
advances (`location += velocity; steps -= 1`, clamped to the end of the
path).  With `steps ≤ 0` it unloads when carrying payload, then clears its
job unconditionally (the `if self.payload == 0:` guard is commented out in
the source).  Every exit except the successful-load early return ends with
`cost = payload * unit_transport_cost`. -/
def VehicleEnv.step (w : VehicleEnv) : VehicleEnv :=
  if w.vehicle.steps > 0 then
    if w.vehicle.location = 0 ∧ w.vehicle.payload = 0 then
      match w.src_stor.try_take_single w.vehicle.product_id w.vehicle.requested_quantity with
      | some st =>
          { w with src_stor := st
                   vehicle := { w.vehicle with payload := w.vehicle.requested_quantity } }
      | none =>
          let v1 : VehicleUnit := { w.vehicle with patient := w.vehicle.patient - 1 }
          if v1.patient < 0 then
            let c1 := w.consumer.update_open_orders w.src_facility_id v1.product_id
                        (-v1.requested_quantity)
            let v2 := v1.reset_internal
            { w with consumer := c1
                     vehicle := { v2 with cost := v2.payload * v2.unit_transport_cost } }
          else
            { w with vehicle := { v1 with cost := v1.payload * v1.unit_transport_cost } }
    else
      let v1 :=
        if w.vehicle.payload > 0 then
          let loc := w.vehicle.location + w.vehicle.velocity
          let plen : Int := ((w.vehicle.path.getD []).length : Int)
          { w.vehicle with location := if loc ≥ plen then plen - 1 else loc
                           steps := w.vehicle.steps - 1 }
        else w.vehicle
      { w with vehicle := { v1 with cost := v1.payload * v1.unit_transport_cost } }
  else
    let w1 := if w.vehicle.payload > 0 then w.try_unload else w
    let v2 := w1.vehicle.reset_internal
    { w1 with vehicle := { v2 with cost := v2.payload * v2.unit_transport_cost } }

/-! ### SimpleManufactureUnit (`simplemanufacture.py`) -/

/-- The manufacture action record: a production rate per tick. -/
structure ManufactureAction where
  production_rate : Int
deriving DecidableEq

/-- Python-side state of `SimpleManufactureUnit` relevant to `step`. -/
structure SimpleManufactureUnit where
  product_id : Int
  manufacture_number : Int
deriving DecidableEq

/-- `SimpleManufactureUnit.step(tick)`: with a positive production rate the
produced quantity is `max(0, min(capacity // sku_num - current, rate))`
where `sku_num` is the number of SKUs at the facility (`skus` lists their
ids) and `current` is the current stored quantity of this product; with no
action or a non-positive rate nothing is produced.  Python `//` on the
non-negative capacity is modelled with `Int.toNat` and `Nat` division. -/
def SimpleManufactureUnit.step (m : SimpleManufactureUnit) (skus : List Int)
    (storage : Storage) (action : Option ManufactureAction) : SimpleManufactureUnit :=
  { m with manufacture_number :=
      match action with
      | none => 0
      | some a =>
        if a.production_rate > 0 then
          let sku_num := skus.length
          let unit_num_upper_bound : Int := (storage.capacity.toNat / sku_num : Nat)
          let current := storage.get_product_number m.product_id
          max 0 (min (unit_num_upper_bound - current) a.production_rate)
        else 0 }

/-! ### Concrete scenario states

Closed states used to evaluate the embedding at the spec's scenarios. -/

/-- Destination consumer of the partial-delivery scenario: an open order of
10 units of product 2 from source facility 1 is outstanding. -/
def c1_consumer : ConsumerUnit :=
  { open_orders := fun s p => if s = 1 ∧ p = 2 then 10 else 0
    received := 0
    purchased := 0
    pending_order_daily := [0, 0]
    order_product_cost := 0 }

/-- Partial-delivery scenario (spec §8): the vehicle has arrived
(`steps = 0`) carrying a payload of 10 units of product 2; the destination
storage has capacity 20 with 16 units occupied, i.e. 4 free units. -/
def c1_env : VehicleEnv :=
  { vehicle := { max_patient := 3, destination := some 9, path := some [(0, 0), (1, 1)]
                 product_id := 2, steps := 0, payload := 10, location := 1, velocity := 2
                 requested_quantity := 10, patient := 3, cost := 10, unit_transport_cost := 1 }
    src_stor := { capacity := 100, product_number := [(2, 0)] }
    dst_stor := { capacity := 20, product_number := [(2, 16)] }
    consumer := c1_consumer
    src_facility_id := 1 }

/-- Starved-loading scenario (spec §8): a vehicle scheduled for 10 units of
product 2 with patience 3 whose source storage holds 0 units of the
product; the destination consumer has the matching open order of 10. -/
def c4_env : VehicleEnv :=
  { vehicle := { max_patient := 3, destination := some 9, path := some [(0, 0), (1, 1)]
                 product_id := 2, steps := 2, payload := 0, location := 0, velocity := 2
                 requested_quantity := 10, patient := 3, cost := 0, unit_transport_cost := 1 }
    src_stor := { capacity := 10, product_number := [(2, 0)] }
    dst_stor := { capacity := 20, product_number := [] }
    consumer := c1_consumer
    src_facility_id := 1 }

/-- Path finder returning a two-waypoint route for any coordinates. -/
def c3_pf : PathFinder := ⟨fun _ _ _ _ => some [(0, 0), (1, 1)]⟩

/-- Vehicle state after `initialize()` followed by a successful
`schedule(destination 9, product 2, quantity 10, vlt 2)`. -/
def c3_v1 : VehicleUnit :=
  (((VehicleUnit.afterInitialize 3 1).schedule c3_pf ⟨1, 0, 0⟩ ⟨9, 1, 1⟩ 2 10 2).toOption).getD
    (VehicleUnit.afterInitialize 3 1)

/-- Environment for the reset claim: the scheduled vehicle with 10 units of
product 2 available at the source. -/
def c3_env : VehicleEnv :=
  { vehicle := c3_v1
    src_stor := { capacity := 100, product_number := [(2, 10)] }
    dst_stor := { capacity := 100, product_number := [] }
    consumer := ConsumerUnit.afterInitialize 2
    src_facility_id := 1 }

/-- Two ticks of the reset scenario: tick 1 loads (payload 10), tick 2 moves
and records `cost = 10 * 1`. -/
def c3_run : VehicleEnv := c3_env.step.step

/-- Loading-success scenario for the per-tick cost claim: like the starved
scenario but the source storage holds the 10 requested units. -/
def c6_env : VehicleEnv :=
  { c4_env with src_stor := { capacity := 100, product_number := [(2, 10)] } }

/-- Idle vehicle environment (no job, no payload). -/
def c6w_env : VehicleEnv :=
  { vehicle := VehicleUnit.afterInitialize 3 1
    src_stor := { capacity := 10, product_number := [] }
    dst_stor := { capacity := 10, product_number := [] }
    consumer := ConsumerUnit.afterInitialize 2
    src_facility_id := 1 }

/-- A consumer with an empty ledger holding one outstanding entry shape used
by the reception witness. -/
def c2_base : ConsumerUnit :=
  { open_orders := fun s p => if s = 1 ∧ p = 2 then 10 else 0
    received := 0
    purchased := 0
    pending_order_daily := []
    order_product_cost := 0 }

/-- Path finder with no routes at all. -/
def c5_pf_none : PathFinder := ⟨fun _ _ _ _ => none⟩

/-- Path finder with a one-waypoint route for any coordinates. -/
def c5_pf_some : PathFinder := ⟨fun _ _ _ _ => some [(0, 0)]⟩

/-- A freshly initialized vehicle used in the scheduling witness. -/
def c5_v : VehicleUnit := VehicleUnit.afterInitialize 3 1

/-- Source facility of the scheduling witness. -/
def c5_fac : Facility := ⟨1, 0, 0⟩

/-- Destination facility of the scheduling witness. -/
def c5_dst : Facility := ⟨2, 5, 5⟩

/-- Fresh consumer with a three-bucket pending window holding 5, 6, 7. -/
def c9_base : ConsumerUnit :=
  { open_orders := fun _ _ => 0
    received := 0
    purchased := 0
    pending_order_daily := [5, 6, 7]
    order_product_cost := 0 }

/-- A valid consumer action: source 1, product 1, quantity 4, lead time 2. -/
def c9_act : ConsumerAction := ⟨1, 1, 4, 2⟩

/-- A valid consumer action with lead time 0. -/
def c10_act : ConsumerAction := ⟨1, 1, 4, 0⟩

/-- An action with a negative source id (and positive quantity/product). -/
def c8_act : ConsumerAction := ⟨-1, 1, 1, 1⟩

/-- An action with source id 0 (caught by the validity guard). -/
def c8w_act : ConsumerAction := ⟨0, 1, 1, 1⟩

/-! ### Helper lemmas -/

theorem length_shiftLeft (l : List Int) : (shiftLeft l).length = l.length := by
  cases l <;> simp [shiftLeft]

theorem getD_shiftLeft (l : List Int) (i : Nat) (hi : i < l.length) :
    (shiftLeft l).getD i 0 = if i + 1 < l.length then l.getD (i + 1) 0 else 0 := by
  cases l with
  | nil => simp at hi
  | cons a t =>
    simp only [shiftLeft, List.length_cons]
    by_cases h : i < t.length
    · rw [List.getD_append _ _ _ _ h, if_pos (by omega), List.getD_cons_succ]
    · have ht : i = t.length := by
        simp only [List.length_cons] at hi
        omega
      subst ht
      rw [List.getD_append_right _ _ _ _ (Nat.le_refl _), if_neg (by omega)]
      simp

theorem getD_set_of_lt (l : List Int) (j i : Nat) (v : Int) (hi : i < l.length) :
    (l.set j v).getD i 0 = if i = j then v else l.getD i 0 := by
  have hi' : i < (l.set j v).length := by simpa [List.length_set] using hi
  rw [List.getD_eq_getElem _ _ hi', List.getElem_set]
  by_cases h : j = i
  · simp [h]
  · rw [if_neg h, if_neg (fun hh => h hh.symm), List.getD_eq_getElem _ _ hi]

/-! ### Claim theorems -/

/-- Claim C2: `on_order_reception(source_id, product_id, quantity,
original_quantity)` adds exactly `quantity` to the per-tick `received`
counter, subtracts exactly `original_quantity` (the originally ordered
amount) from the ledger entry for (source_id, product_id), and leaves every
other ledger entry unchanged. -/
theorem claim_C2 (c : ConsumerUnit) (source_id product_id quantity original_quantity : Int) :
    ((c.on_order_reception source_id product_id quantity original_quantity).received
        = c.received + quantity)
    ∧ ((c.on_order_reception source_id product_id quantity original_quantity).open_orders
        source_id product_id = c.open_orders source_id product_id - original_quantity)
    ∧ (∀ s p, ¬(s = source_id ∧ p = product_id) →
        (c.on_order_reception source_id product_id quantity original_quantity).open_orders s p
          = c.open_orders s p) := by
  refine ⟨rfl, ?_, ?_⟩
  · show (if source_id = source_id ∧ product_id = product_id
        then c.open_orders source_id product_id + -original_quantity
        else c.open_orders source_id product_id)
      = c.open_orders source_id product_id - original_quantity
    rw [if_pos ⟨rfl, rfl⟩]
    ring
  · intro s p h
    show (if s = source_id ∧ p = product_id
        then c.open_orders s p + -original_quantity else c.open_orders s p) = c.open_orders s p
    rw [if_neg h]

/-- Witness for claim C2 at a concrete consumer and delivery. -/
theorem claim_C2_witness :
    ((c2_base.on_order_reception 1 2 3 10).received = c2_base.received + 3)
    ∧ ((c2_base.on_order_reception 1 2 3 10).open_orders 4 2 = c2_base.open_orders 4 2) :=
  ⟨(claim_C2 c2_base 1 2 3 10).1, (claim_C2 c2_base 1 2 3 10).2.2 4 2 (by decide)⟩

/-- Claim C3 counterexample: after two ticks of a successfully loading and
then moving vehicle, `reset()` leaves `cost = 10`, while the
post-`initialize()` state has `cost = 0` — the reset state is not
observationally identical to the post-initialize state. -/
theorem claim_C3_counterexample :
    c3_run.vehicle.reset ≠ VehicleUnit.afterInitialize 3 1
    ∧ (c3_run.vehicle.reset).cost = 10
    ∧ (VehicleUnit.afterInitialize 3 1).cost = 0 := by
  decide

/-- Claim C3 amended: `reset()` clears the vehicle's job fields and restores
patience to the configured maximum, and empties the consumer's ledger and
re-zeroes its pending window; but the vehicle's `cost` field and the
consumer's `received`, `purchased` and `order_product_cost` counters are
left untouched by reset (and the post-`initialize()` patience is 0, not the
maximum). -/
theorem claim_C3_amended (v : VehicleUnit) (c : ConsumerUnit) (n : Nat) :
    (v.reset).destination = none ∧ (v.reset).path = none ∧ (v.reset).payload = 0
    ∧ (v.reset).product_id = 0 ∧ (v.reset).steps = 0 ∧ (v.reset).location = 0
    ∧ (v.reset).requested_quantity = 0 ∧ (v.reset).velocity = 0
    ∧ (v.reset).patient = v.max_patient ∧ (v.reset).cost = v.cost
    ∧ (c.reset n).open_orders = (fun _ _ => 0)
    ∧ (c.reset n).pending_order_daily = List.replicate n 0
    ∧ (c.reset n).received = c.received ∧ (c.reset n).purchased = c.purchased
    ∧ (c.reset n).order_product_cost = c.order_product_cost :=
  ⟨rfl, rfl, rfl, rfl, rfl, rfl, rfl, rfl, rfl, rfl, rfl, rfl, rfl, rfl, rfl⟩

/-- Claim C4: in the starved-loading scenario (source storage empty,
patience 3, requested quantity 10), the vehicle fails to load on ticks 1–3
with patience counting 3→2→1→0 while keeping its job, then aborts on tick 4
when patience goes below 0: the open-order ledger entry drops from 10 to 0
(rollback by the full requested quantity), nothing is delivered
(destination stock and `received` stay 0) and the vehicle is job-less with
patience restored. -/
theorem claim_C4 :
    c4_env.consumer.open_orders 1 2 = 10
    ∧ (c4_env.step).vehicle.patient = 2
    ∧ (c4_env.step.step).vehicle.patient = 1
    ∧ (c4_env.step.step.step).vehicle.patient = 0
    ∧ (c4_env.step.step.step).vehicle.destination = some 9
    ∧ (c4_env.step.step.step).consumer.open_orders 1 2 = 10
    ∧ (c4_env.step.step.step.step).vehicle.destination = none
    ∧ (c4_env.step.step.step.step).vehicle.payload = 0
    ∧ (c4_env.step.step.step.step).vehicle.patient = c4_env.vehicle.max_patient
    ∧ (c4_env.step.step.step.step).consumer.open_orders 1 2 = 0
    ∧ (c4_env.step.step.step.step).consumer.received = 0
    ∧ (c4_env.step.step.step.step).dst_stor.get_product_number 2 = 0 := by
  decide

/-- Claim C1 counterexample: in the partial-delivery scenario (payload 10
arriving at a destination with 4 free units, open order 10), after the tick
the ledger entry is 0 — it decreased by 10, not by 4 — and the vehicle's
payload is 0, not the claimed 6. -/
theorem claim_C1_counterexample :
    c1_env.consumer.open_orders 1 2 = 10
    ∧ (c1_env.step).consumer.open_orders 1 2 ≠ 6
    ∧ (c1_env.step).vehicle.payload ≠ 6 := by
  decide

/-- Claim C1 amended: the tick's step delivers 4 units via
`try_add(all_or_nothing=False)` (destination stock rises by 4, the
consumer's `received` counter becomes 4), the open-order ledger entry
decreases by 10 — the full payload is passed as the original amount — and
the vehicle's job is cleared at the end of the tick (payload 0, idle), so
the remaining 6 units are dropped rather than retried. -/
theorem claim_C1_amended :
    (c1_env.step).dst_stor.get_product_number 2 = c1_env.dst_stor.get_product_number 2 + 4
    ∧ (c1_env.step).consumer.received = 4
    ∧ (c1_env.step).consumer.open_orders 1 2 = c1_env.consumer.open_orders 1 2 - 10
    ∧ (c1_env.step).vehicle.payload = 0
    ∧ (c1_env.step).vehicle.destination = none := by
  decide

/-- Claim C7: each tick of `SimpleManufactureUnit`, a positive production
rate yields `max 0 (min (capacity // sku_num - current, rate))`, where
`capacity // sku_num` is the facility's storage capacity integer-divided by
its number of SKUs; with no action or a non-positive rate nothing is
produced. -/
theorem claim_C7 (m : SimpleManufactureUnit) (skus : List Int) (storage : Storage)
    (action : Option ManufactureAction) :
    (∀ a, action = some a → 0 < a.production_rate →
      (m.step skus storage action).manufacture_number =
        max 0 (min (((storage.capacity.toNat / skus.length : Nat) : Int)
                      - storage.get_product_number m.product_id)
                   a.production_rate))
    ∧ ((action = none ∨ ∃ a, action = some a ∧ a.production_rate ≤ 0) →
        (m.step skus storage action).manufacture_number = 0) := by
  constructor
  · rintro a rfl hr
    simp only [SimpleManufactureUnit.step, if_pos hr]
  · rintro (rfl | ⟨a, rfl, hr⟩)
    · rfl
    · simp only [SimpleManufactureUnit.step, if_neg (by omega : ¬ a.production_rate > 0)]

/-- Witness for claim C7: capacity 10 split over 2 SKUs with 3 units of the
product already stored and a requested rate of 4 produces
`max 0 (min (5 - 3) 4) = 2`. -/
theorem claim_C7_witness :
    (SimpleManufactureUnit.step ⟨2, 0⟩ [1, 2] ⟨10, [(2, 3)]⟩ (some ⟨4⟩)).manufacture_number
      = max 0 (min ((((10 : Int).toNat / ([1, 2] : List Int).length : Nat) : Int)
                      - Storage.get_product_number ⟨10, [(2, 3)]⟩ 2) 4) :=
  (claim_C7 ⟨2, 0⟩ [1, 2] ⟨10, [(2, 3)]⟩ (some ⟨4⟩)).1 ⟨4⟩ rfl (by decide)

/-- Claim C8 counterexample: an action with a negative source id (here -1)
and positive quantity and product id is not ignored — the step records it
into the open-order ledger (the guard only filters `source_id == 0`). -/
theorem claim_C8_counterexample :
    (c9_base.step (some c8_act) 7).open_orders (-1) 1 ≠ c9_base.open_orders (-1) 1 := by
  decide

/-- Claim C8 amended: `ConsumerUnit.step` ignores the action — leaving the
ledger, `purchased` and `order_product_cost` unchanged and only shifting the
pending window — exactly when the action has non-positive quantity,
non-positive product id, or a source id equal to 0; a negative source id is
not filtered by this guard. -/
theorem claim_C8_amended (c : ConsumerUnit) (a : ConsumerAction) (place_order_cost : Int)
    (h : a.quantity ≤ 0 ∨ a.product_id ≤ 0 ∨ a.source_id = 0) :
    c.step (some a) place_order_cost
      = { c with pending_order_daily := shiftLeft c.pending_order_daily } := by
  simp only [ConsumerUnit.step]
  rw [if_pos h]

/-- Witness for claim C8 at an action with source id 0. -/
theorem claim_C8_witness :
    c9_base.step (some c8w_act) 7
      = { c9_base with pending_order_daily := shiftLeft c9_base.pending_order_daily } :=
  claim_C8_amended c9_base c8w_act 7 (by decide)

/-- Claim C5: `schedule(destination, product_id, quantity, vlt)` fails (the
source raises; here `Except.error`) exactly when the path finder returns no
route between the vehicle's facility and the destination coordinates;
otherwise it arms the job with `steps = vlt`, `location = 0`,
`velocity = vlt` and `patient = max_patient`. -/
theorem claim_C5 (v : VehicleUnit) (pf : PathFinder) (facility destination : Facility)
    (product_id quantity vlt : Int) :
    ((∃ e, v.schedule pf facility destination product_id quantity vlt = Except.error e)
        ↔ pf.find_path facility.x facility.y destination.x destination.y = none)
    ∧ (∀ p, pf.find_path facility.x facility.y destination.x destination.y = some p →
        ∃ v', v.schedule pf facility destination product_id quantity vlt = Except.ok v'
          ∧ v'.steps = vlt ∧ v'.location = 0 ∧ v'.velocity = vlt
          ∧ v'.patient = v.max_patient ∧ v'.path = some p) := by
  constructor
  · constructor
    · rintro ⟨e, he⟩
      cases hfp : pf.find_path facility.x facility.y destination.x destination.y with
      | none => rfl
      | some p =>
        rw [VehicleUnit.schedule, hfp] at he
        exact absurd he (by simp)
    · intro hfp
      exact ⟨_, by rw [VehicleUnit.schedule, hfp]⟩
  · intro p hfp
    exact ⟨_, by rw [VehicleUnit.schedule, hfp], rfl, rfl, rfl, rfl, rfl⟩

/-- Witness for claim C5: with a route-less path finder scheduling fails,
and with a route-returning one the job is armed as stated. -/
theorem claim_C5_witness :
    (∃ e, c5_v.schedule c5_pf_none c5_fac c5_dst 2 10 2 = Except.error e)
    ∧ (∃ v', c5_v.schedule c5_pf_some c5_fac c5_dst 2 10 2 = Except.ok v'
        ∧ v'.steps = 2 ∧ v'.location = 0 ∧ v'.velocity = 2 ∧ v'.patient = c5_v.max_patient
        ∧ v'.path = some [(0, 0)]) :=
  ⟨(claim_C5 c5_v c5_pf_none c5_fac c5_dst 2 10 2).1.mpr rfl,
   (claim_C5 c5_v c5_pf_some c5_fac c5_dst 2 10 2).2 [(0, 0)] rfl⟩

/-- Claim C6 counterexample: on the tick on which loading succeeds the
source returns early and skips the `cost = payload * unit_transport_cost`
line: afterwards payload is 10 and unit cost 1, but cost is still 0. -/
theorem claim_C6_counterexample :
    (c6_env.step).vehicle.cost
      ≠ (c6_env.step).vehicle.payload * (c6_env.step).vehicle.unit_transport_cost := by
  decide

/-- Claim C6 amended: after `step(tick)` the per-tick transport cost equals
payload × unit transport cost in every phase except the tick on which
loading succeeds — that branch returns early without recording the cost,
leaving the previous value. -/
theorem claim_C6_amended (w : VehicleEnv)
    (h : ¬(w.vehicle.steps > 0 ∧ w.vehicle.location = 0 ∧ w.vehicle.payload = 0 ∧
        (w.src_stor.try_take_single w.vehicle.product_id w.vehicle.requested_quantity).isSome)) :
    (w.step).vehicle.cost = (w.step).vehicle.payload * (w.step).vehicle.unit_transport_cost := by
  unfold VehicleEnv.step
  split
  · next hsteps =>
    split
    · next hloc =>
      split
      · next st heq =>
        exact absurd ⟨hsteps, hloc.1, hloc.2, by rw [heq]; rfl⟩ h
      · next heq =>
        dsimp only
        split
        · rfl
        · rfl
    · rfl
  · rfl

/-- Witness for claim C6 at an idle vehicle: the hypothesis holds (no load
is attempted) and the recorded cost is payload × unit cost. -/
theorem claim_C6_witness :
    ¬(c6w_env.vehicle.steps > 0 ∧ c6w_env.vehicle.location = 0 ∧ c6w_env.vehicle.payload = 0 ∧
        (c6w_env.src_stor.try_take_single c6w_env.vehicle.product_id
          c6w_env.vehicle.requested_quantity).isSome)
    ∧ (c6w_env.step).vehicle.cost
        = (c6w_env.step).vehicle.payload * (c6w_env.step).vehicle.unit_transport_cost :=
  ⟨by decide, claim_C6_amended c6w_env (by decide)⟩

/-- Characterization of the pending-order window after a valid-action
consumer step, entry by entry in terms of the pre-step window: every bucket
first shifts left by one (a zero entering at the end), and the ordered
quantity lands on top of that exactly at Python index `vlt - 1` and exactly
when `vlt` is less than the window length. -/
theorem consumer_step_pending_getD (c : ConsumerUnit) (a : ConsumerAction)
    (place_order_cost : Int) (hq : 0 < a.quantity) (hp : 0 < a.product_id)
    (hs : a.source_id ≠ 0) (hv : 0 ≤ a.vlt)
    (i : Nat) (hi : i < c.pending_order_daily.length) :
    (c.step (some a) place_order_cost).pending_order_daily.getD i 0 =
      (if i + 1 < c.pending_order_daily.length
        then c.pending_order_daily.getD (i + 1) 0 else 0)
      + (if a.vlt < (c.pending_order_daily.length : Int) ∧
            i = pyNat c.pending_order_daily.length (a.vlt - 1)
          then a.quantity else 0) := by
  have hguard : ¬(a.quantity ≤ 0 ∨ a.product_id ≤ 0 ∨ a.source_id = 0) := by
    push_neg
    exact ⟨by omega, by omega, hs⟩
  simp only [ConsumerUnit.step, if_neg hguard, ConsumerUnit.update_open_orders]
  rw [length_shiftLeft]
  by_cases hlt : a.vlt < (c.pending_order_daily.length : Int)
  · rw [if_pos hlt]
    simp only [pyUpdate, length_shiftLeft]
    have hj : pyNat c.pending_order_daily.length (a.vlt - 1) < c.pending_order_daily.length := by
      simp only [pyNat]
      split <;> omega
    have hi' : i < (shiftLeft c.pending_order_daily).length := by
      rw [length_shiftLeft]; exact hi
    rw [getD_set_of_lt _ _ _ _ hi']
    by_cases hij : i = pyNat c.pending_order_daily.length (a.vlt - 1)
    · subst hij
      rw [getD_shiftLeft _ _ hi]
      simp only [eq_self_iff_true, if_true, and_true]
      rw [if_pos hlt]
    · rw [if_neg hij, getD_shiftLeft _ _ hi,
        if_neg (show ¬(a.vlt < (c.pending_order_daily.length : Int) ∧
          i = pyNat c.pending_order_daily.length (a.vlt - 1)) from fun hh => hij hh.2),
        add_zero]
  · rw [if_neg hlt, getD_shiftLeft _ _ hi,
      if_neg (show ¬(a.vlt < (c.pending_order_daily.length : Int) ∧
        i = pyNat c.pending_order_daily.length (a.vlt - 1)) from fun hh => hlt hh.1),
      add_zero]

/-- Claim C9: on every `ConsumerUnit.step` with a valid action, the pending
window is first shifted left by one slot (oldest bucket dropped, a zero
entering at the end) before the action is examined, and the ordered
quantity is then added into the bucket at Python index `vlt - 1` — the
bucket corresponding to lead time `vlt` — exactly when `vlt` is within the
tracked window length. -/
theorem claim_C9 (c : ConsumerUnit) (a : ConsumerAction)
    (place_order_cost : Int) (hq : 0 < a.quantity) (hp : 0 < a.product_id)
    (hs : a.source_id ≠ 0) (hv : 0 ≤ a.vlt)
    (i : Nat) (hi : i < c.pending_order_daily.length) :
    (c.step (some a) place_order_cost).pending_order_daily.getD i 0 =
      (if i + 1 < c.pending_order_daily.length
        then c.pending_order_daily.getD (i + 1) 0 else 0)
      + (if a.vlt < (c.pending_order_daily.length : Int) ∧
            i = pyNat c.pending_order_daily.length (a.vlt - 1)
          then a.quantity else 0) :=
  consumer_step_pending_getD c a place_order_cost hq hp hs hv i hi

/-- Witness for claim C9: window `[5, 6, 7]`, lead time 2, quantity 4 —
bucket 1 of the stepped window holds the shifted 7 plus the 4. -/
theorem claim_C9_witness :
    (c9_base.step (some c9_act) 3).pending_order_daily.getD 1 0 =
      (if 1 + 1 < c9_base.pending_order_daily.length
        then c9_base.pending_order_daily.getD (1 + 1) 0 else 0)
      + (if c9_act.vlt < (c9_base.pending_order_daily.length : Int) ∧
            1 = pyNat c9_base.pending_order_daily.length (c9_act.vlt - 1)
          then c9_act.quantity else 0) :=
  claim_C9 c9_base c9_act 3 (by decide) (by decide) (by decide) (by decide) 1 (by decide)

/-- Claim C10: a valid consumer action with lead time 0 passes the
`vlt < len` guard and its bucket index `vlt - 1 = -1` selects, by Python
negative indexing, the final slot: the ordered quantity is added to the
last bucket of the (just-shifted, hence zero there) pending window. -/
theorem claim_C10 (c : ConsumerUnit) (a : ConsumerAction)
    (place_order_cost : Int) (hq : 0 < a.quantity) (hp : 0 < a.product_id)
    (hs : a.source_id ≠ 0) (hvlt : a.vlt = 0)
    (hn : 0 < c.pending_order_daily.length) :
    (c.step (some a) place_order_cost).pending_order_daily.getD
        (c.pending_order_daily.length - 1) 0 = a.quantity := by
  rw [consumer_step_pending_getD c a place_order_cost hq hp hs (by omega)
      (c.pending_order_daily.length - 1) (by omega)]
  rw [if_neg (by omega : ¬ c.pending_order_daily.length - 1 + 1 < c.pending_order_daily.length)]
  rw [if_pos ⟨by rw [hvlt]; exact_mod_cast hn, by simp only [pyNat, hvlt]; split <;> omega⟩]
  rw [zero_add]

/-- Witness for claim C10: window `[5, 6, 7]`, lead time 0, quantity 4 —
the last bucket of the stepped window holds 4. -/
theorem claim_C10_witness :
    (c9_base.step (some c10_act) 0).pending_order_daily.getD
        (c9_base.pending_order_daily.length - 1) 0 = c10_act.quantity :=
  claim_C10 c9_base c10_act 0 (by decide) (by decide) (by decide) (by decide) (by decide)

end SupplyChain
